import Mathlib

/-!
Verification of the command-dispatch core of osspd's slave process
(`ossp_slave_process_command` in `src/ossp-slave.c`).

The function is embedded shallowly: the per-invocation interaction with the
operating system (the `recvmsg` result, allocation success, `read_fill` /
`write_fill` success) is an oracle environment `Env`, the process-wide
configuration (opcode table, handler table, acquire-hook result) is `Config`,
and one invocation is the pure function `processCommand`, whose `Outcome`
records the value returned to the caller, the chunks written to the wire,
the hook/handler call counts, and the sizes passed to buffer growth and to
payload reads.
-/

namespace Osspd

/-- Linux errno value EINVAL, the code behind `-EINVAL` in the source. -/
def EINVAL : Int := 22

/-- Linux errno value ENOMEM, the code behind `-ENOMEM` in the source. -/
def ENOMEM : Int := 12

/-- Linux errno value EIO, the code behind `-EIO` in the source. -/
def IOERR : Int := 5

/-- Linux value of SOL_SOCKET, the cmsg level accepted by the source. -/
def SOL_SOCKET : Nat := 1

/-- Linux value of SCM_RIGHTS, the cmsg type accepted by the source. -/
def SCM_RIGHTS : Nat := 1

/-- Modelled from the spec: `OSSP_CMD_MAGIC` lives in `ossp.h`, which is not
under `src/`; only equality of the header field with the sentinel matters,
so any fixed value is faithful. -/
def OSSP_CMD_MAGIC : Nat := 0x4f535043

/-- Modelled from the spec: `OSSP_REPLY_MAGIC` lives in `ossp.h`; the reply
sentinel, distinct from the request sentinel. -/
def OSSP_REPLY_MAGIC : Nat := 0x4f535052

/-- Modelled from the spec: `struct ossp_cmd` is four u32 fields
(`magic, opcode, din_size, dout_size`, spec section 6), hence 16 bytes. -/
def SIZEOF_OSSP_CMD : Nat := 16

/-- One entry of `ossp_arg_sizes` (declared in `ossp.h`): fixed argument
sizes and the descriptor-presence flag for one opcode. -/
structure ArgSizes where
  carg_size : Nat
  rarg_size : Nat
  has_fd : Bool
  deriving Repr, DecidableEq

/-- What a handler left behind: its return value, the final value of the
`dout_size` variable it received by pointer, and the contents of the
`rarg` and `dout` buffers after it ran. -/
structure HandlerOut where
  result : Int
  dout_size : Nat
  rargBuf : List Nat
  doutBuf : List Nat
  deriving Repr, DecidableEq

/-- Signature of one `ossp_action_fn_t` handler:
opcode, carg bytes, din bytes, din_size, dout_size (initial), fd. -/
def HandlerFn : Type :=
  Nat → List Nat → List Nat → Nat → Nat → Int → HandlerOut

/-- Process-wide configuration: `OSSP_NR_OPCODES` and `ossp_arg_sizes`
(from `ossp.h`/`ossp.c`, modelled as parameters), the `action_fn_tbl`
handler table, and the result the `action_pre_fn` acquire hook returns. -/
structure Config where
  nrOpcodes : Nat
  argSizes : Nat → ArgSizes
  actionTbl : Nat → Option HandlerFn
  preRet : Int

/-- One ancillary control message attached to the received datagram. -/
structure Cmsg where
  level : Nat
  ctype : Nat
  fd : Int
  deriving Repr, DecidableEq

/-- The fixed command header, `struct ossp_cmd`. -/
structure OsspCmd where
  magic : Nat
  opcode : Nat
  din_size : Nat
  dout_size : Nat
  deriving Repr, DecidableEq

/-- What `recvmsg` produced: clean close (0 bytes), a failure with an errno,
or a message of `nbytes` bytes carrying the command header and a list of
ancillary control messages. -/
inductive RecvResult where
  | closed : RecvResult
  | failed (errno : Nat) : RecvResult
  | msg (nbytes : Nat) (cmd : OsspCmd) (cmsgs : List Cmsg) : RecvResult
  deriving Repr, DecidableEq

/-- Per-invocation oracle for the outside world: the `recvmsg` outcome,
whether `ensure_sbuf_size` succeeds for a given buffer index and size,
whether the k-th `read_fill` call fails, the payload bytes available on the
wire, the stale contents the out-buffers held before this command, and
whether the k-th `write_fill` call fails (a zero-length write never does). -/
structure Env where
  recv : RecvResult
  allocOk : Nat → Nat → Bool
  readFail : Nat → Bool
  cargBytes : List Nat
  dinBytes : List Nat
  staleRarg : List Nat
  staleDout : List Nat
  writeFail : Nat → Bool

/-- The reply header, `struct ossp_reply`. -/
structure OsspReply where
  magic : Nat
  result : Int
  dout_size : Nat
  deriving Repr, DecidableEq

/-- One successful `write_fill` call on the command channel: either the
reply header or a run of raw payload bytes (empty for a zero-length write). -/
inductive Chunk where
  | hdr (r : OsspReply) : Chunk
  | raw (bs : List Nat) : Chunk
  deriving Repr, DecidableEq

/-- Observable outcome of one `ossp_slave_process_command` invocation:
the value returned to the outer loop, the chunks actually written to the
wire (in order), the local result code as it stood at the reply stage
(`none` when the reply stage was never reached), call counts for the
acquire hook, the handler, and the release hook, and the sizes passed to
`ensure_sbuf_size` and to payload `read_fill` calls, in order. -/
structure Outcome where
  ret : Int
  wire : List Chunk
  result : Option Int
  preCalls : Nat
  handlerCalls : Nat
  postCalls : Nat
  ensureCalls : List Nat
  readCalls : List Nat
  deriving Repr, DecidableEq

/-- Outcome of a path that aborted before the reply stage: a bare return
value plus whatever growth/read sizes had been requested by then. -/
def abortOut (r : Int) (ens reads : List Nat) : Outcome :=
  { ret := r, wire := [], result := none, preCalls := 0, handlerCalls := 0,
    postCalls := 0, ensureCalls := ens, readCalls := reads }

/-- The all-zero outcome: nothing observed beyond a return value of 0. -/
def Outcome.mk0 : Outcome := abortOut 0 [] []

/-- First `n` bytes of a buffer whose written part is `l`; bytes beyond the
written part read as zero (the model's stand-in for unspecified memory). -/
def padTake (n : Nat) (l : List Nat) : List Nat :=
  (l ++ List.replicate n 0).take n

/-- The cmsg scan loop of lines 121-131: starting from `fd = -1`, each
`SOL_SOCKET`/`SCM_RIGHTS` message overwrites `fd` with its payload, any
other message aborts with an error (`none`). -/
def scanCmsgs : Int → List Cmsg → Option Int
  | fd, [] => some fd
  | _, c :: rest =>
    if c.level = SOL_SOCKET ∧ c.ctype = SCM_RIGHTS then scanCmsgs c.fd rest
    else none

/-- The short-circuiting `ensure_sbuf_size` chain of lines 148-151: grow the
buffers in order, stopping at the first failure; returns the sizes actually
requested and whether all requests succeeded. -/
def ensureSeq (allocOk : Nat → Nat → Bool) : List (Nat × Nat) → List Nat × Bool
  | [] => ([], true)
  | (i, n) :: rest =>
    if allocOk i n then
      let r := ensureSeq allocOk rest
      (n :: r.1, r.2)
    else ([n], false)

/-- The reply stage, lines 184-197: build the reply header (its `dout_size`
field was zero-initialized and is only set on a non-negative result), zero
the payload section lengths on a negative result, then attempt the three
`write_fill` calls in order, aborting with `-EIO` on the first failure.
A zero-length `write_fill` is a no-op success (spec section 4.1). -/
def finishReply (env : Env) (res : Int) (rarg_size dsz : Nat)
    (rbuf dbuf : List Nat) (ens reads : List Nat)
    (pre hc post : Nat) : Outcome :=
  let reply : OsspReply :=
    { magic := OSSP_REPLY_MAGIC, result := res,
      dout_size := if 0 ≤ res then dsz else 0 }
  let rargN := if 0 ≤ res then rarg_size else 0
  let doutN := if 0 ≤ res then dsz else 0
  let wr : Int × List Chunk :=
    if env.writeFail 0 = true then
      (-IOERR, [])
    else if env.writeFail 1 = true ∧ rargN ≠ 0 then
      (-IOERR, [Chunk.hdr reply])
    else if env.writeFail 2 = true ∧ doutN ≠ 0 then
      (-IOERR, [Chunk.hdr reply, Chunk.raw (padTake rargN rbuf)])
    else
      (1, [Chunk.hdr reply, Chunk.raw (padTake rargN rbuf),
           Chunk.raw (padTake doutN dbuf)])
  { ret := wr.1, wire := wr.2, result := some res, preCalls := pre,
    handlerCalls := hc, postCalls := post, ensureCalls := ens,
    readCalls := reads }

/-- The four buffer-growth requests of lines 148-151, in program order:
(buffer index, requested size) for carg, din, rarg, dout. -/
def ensureList (cfg : Config) (cmd : OsspCmd) : List (Nat × Nat) :=
  [(0, (cfg.argSizes cmd.opcode).carg_size), (1, cmd.din_size),
   (2, (cfg.argSizes cmd.opcode).rarg_size), (3, cmd.dout_size)]

/-- The payload `read_fill` sizes of lines 156-167 when both reads go
through: the fixed-arg-in size when nonzero, then `din_size` when nonzero. -/
def readList (cfg : Config) (cmd : OsspCmd) : List Nat :=
  (if (cfg.argSizes cmd.opcode).carg_size ≠ 0 then
    [(cfg.argSizes cmd.opcode).carg_size] else []) ++
  (if cmd.din_size ≠ 0 then [cmd.din_size] else [])

/-- The carg buffer contents handed to the handler: the fixed-arg-in bytes
read from the wire, or the NULL buffer (modelled as `[]`) when the opcode
has no fixed argument. -/
def cargView (cfg : Config) (env : Env) (cmd : OsspCmd) : List Nat :=
  if (cfg.argSizes cmd.opcode).carg_size ≠ 0 then
    padTake (cfg.argSizes cmd.opcode).carg_size env.cargBytes
  else []

/-- The din buffer contents handed to the handler. -/
def dinView (env : Env) (cmd : OsspCmd) : List Nat :=
  if cmd.din_size ≠ 0 then padTake cmd.din_size env.dinBytes else []

/-- The Invoke stage, lines 173-182: `ret` starts at -EINVAL; with a
registered handler the acquire hook runs, and only on its success do the
handler and then the release hook run; the reply stage follows. -/
def invokeStage (cfg : Config) (env : Env) (cmd : OsspCmd) (fd : Int) :
    Outcome :=
  match cfg.actionTbl cmd.opcode with
  | none =>
    finishReply env (-EINVAL) (cfg.argSizes cmd.opcode).rarg_size
      cmd.dout_size env.staleRarg env.staleDout
      (ensureSeq env.allocOk (ensureList cfg cmd)).1
      (readList cfg cmd) 0 0 0
  | some h =>
    if cfg.preRet = 0 then
      finishReply env
        (h cmd.opcode (cargView cfg env cmd) (dinView env cmd)
          cmd.din_size cmd.dout_size fd).result
        (cfg.argSizes cmd.opcode).rarg_size
        (h cmd.opcode (cargView cfg env cmd) (dinView env cmd)
          cmd.din_size cmd.dout_size fd).dout_size
        (h cmd.opcode (cargView cfg env cmd) (dinView env cmd)
          cmd.din_size cmd.dout_size fd).rargBuf
        (h cmd.opcode (cargView cfg env cmd) (dinView env cmd)
          cmd.din_size cmd.dout_size fd).doutBuf
        (ensureSeq env.allocOk (ensureList cfg cmd)).1
        (readList cfg cmd) 1 1 1
    else
      finishReply env cfg.preRet (cfg.argSizes cmd.opcode).rarg_size
        cmd.dout_size env.staleRarg env.staleDout
        (ensureSeq env.allocOk (ensureList cfg cmd)).1
        (readList cfg cmd) 1 0 0

/-- The StageBuffers and ReadPayload stages, lines 148-167: grow the four
scratch buffers (failure aborts with -ENOMEM before any payload read), then
`read_fill` the fixed-arg-in and data-in sections when nonzero (failure
aborts with the `read_fill` error -EIO). -/
def readStage (cfg : Config) (env : Env) (cmd : OsspCmd) (fd : Int) :
    Outcome :=
  if (ensureSeq env.allocOk (ensureList cfg cmd)).2 = false then
    abortOut (-ENOMEM) (ensureSeq env.allocOk (ensureList cfg cmd)).1 []
  else if (cfg.argSizes cmd.opcode).carg_size ≠ 0 ∧
      env.readFail 0 = true then
    abortOut (-IOERR) (ensureSeq env.allocOk (ensureList cfg cmd)).1
      [(cfg.argSizes cmd.opcode).carg_size]
  else if cmd.din_size ≠ 0 ∧ env.readFail 1 = true then
    abortOut (-IOERR) (ensureSeq env.allocOk (ensureList cfg cmd)).1
      ((if (cfg.argSizes cmd.opcode).carg_size ≠ 0 then
          [(cfg.argSizes cmd.opcode).carg_size] else []) ++
        [cmd.din_size])
  else invokeStage cfg env cmd fd

/-- The ValidateHeader stage on a received message, lines 110-146: header
byte count, magic, cmsg scan, opcode range, and descriptor presence, each
failure aborting with -EINVAL before any buffer or wire activity. -/
def validateStage (cfg : Config) (env : Env) (nbytes : Nat) (cmd : OsspCmd)
    (cmsgs : List Cmsg) : Outcome :=
  if nbytes ≠ SIZEOF_OSSP_CMD then abortOut (-EINVAL) [] []
  else if cmd.magic ≠ OSSP_CMD_MAGIC then abortOut (-EINVAL) [] []
  else
    match scanCmsgs (-1) cmsgs with
    | none => abortOut (-EINVAL) [] []
    | some fd =>
      if cfg.nrOpcodes ≤ cmd.opcode then abortOut (-EINVAL) [] []
      else if (decide (0 ≤ fd)) ≠ (cfg.argSizes cmd.opcode).has_fd then
        abortOut (-EINVAL) [] []
      else readStage cfg env cmd fd

/-- Shallow embedding of `ossp_slave_process_command` (lines 81-197),
mirroring its control flow: receive, header-size check, magic check, cmsg
scan, opcode-range check, descriptor-presence check, buffer growth, payload
reads, acquire/handler/release bracket, reply. Payload `read_fill` failures
return the modelled `read_fill` error `-EIO` (spec section 4.1; `read_fill`
itself lives outside `src/`). -/
def processCommand (cfg : Config) (env : Env) : Outcome :=
  match env.recv with
  | RecvResult.closed => Outcome.mk0
  | RecvResult.failed errno => abortOut (-(errno : Int)) [] []
  | RecvResult.msg nbytes cmd cmsgs => validateStage cfg env nbytes cmd cmsgs

/-! Concrete fixtures used to exercise the model on closed inputs. -/

/-- Test handler: succeeds, keeps the requested output length, leaves
recognizable bytes in both output buffers. -/
def okHandler : HandlerFn := fun _op _carg _din _dsz doutIn _fd =>
  { result := 0, dout_size := doutIn, rargBuf := [7, 7], doutBuf := [9, 9, 9] }

/-- Test handler: fails with an opaque negative code after scribbling into
both output buffers and inflating the output length. -/
def negHandler : HandlerFn := fun _op _carg _din _dsz _doutIn _fd =>
  { result := -5, dout_size := 99, rargBuf := [1, 1], doutBuf := [2, 2] }

/-- Test configuration: four opcodes; opcode 1 takes 2 carg bytes, returns
2 rarg bytes, no descriptor; opcode 2 carries a descriptor; opcode 3 is in
range but unregistered; the acquire hook succeeds. -/
def testCfg : Config where
  nrOpcodes := 4
  argSizes := fun op =>
    if op = 1 then { carg_size := 2, rarg_size := 2, has_fd := false }
    else if op = 2 then { carg_size := 0, rarg_size := 0, has_fd := true }
    else { carg_size := 0, rarg_size := 0, has_fd := false }
  actionTbl := fun op =>
    if op = 1 then some okHandler
    else if op = 2 then some okHandler
    else none
  preRet := 0

/-- Variant of `testCfg` whose handler for opcode 1 fails. -/
def negCfg : Config := { testCfg with
  actionTbl := fun op => if op = 1 then some negHandler else none }

/-- Variant of `testCfg` whose acquire hook fails with -7. -/
def preFailCfg : Config := { testCfg with preRet := -7 }

/-- A command header for opcode 1 with 3 data-in and 4 data-out bytes. -/
def cmd1 : OsspCmd :=
  { magic := OSSP_CMD_MAGIC, opcode := 1, din_size := 3, dout_size := 4 }

/-- Environment in which everything succeeds for `cmd1`. -/
def envOk : Env where
  recv := RecvResult.msg SIZEOF_OSSP_CMD cmd1 []
  allocOk := fun _ _ => true
  readFail := fun _ => false
  cargBytes := [1, 2]
  dinBytes := [4, 5, 6]
  staleRarg := [8, 8]
  staleDout := [6, 6]
  writeFail := fun _ => false

/-- Clean peer close: `recvmsg` returned 0 bytes. -/
def envClosed : Env := { envOk with recv := RecvResult.closed }

/-- A header of the right size whose magic field is wrong. -/
def envBadMagic : Env := { envOk with
  recv := RecvResult.msg SIZEOF_OSSP_CMD { cmd1 with magic := 0 } [] }

/-- A short header: only 7 of the 16 header bytes arrived. -/
def envBadSize : Env := { envOk with recv := RecvResult.msg 7 cmd1 [] }

/-- A valid header accompanied by an ancillary message that is not
SCM_RIGHTS descriptor passing. -/
def envBadCmsg : Env := { envOk with
  recv := RecvResult.msg SIZEOF_OSSP_CMD cmd1
    [{ level := SOL_SOCKET, ctype := 9, fd := 3 }] }

/-- A valid header whose opcode 4 is outside the table (nrOpcodes = 4). -/
def envOobOpcode : Env := { envOk with
  recv := RecvResult.msg SIZEOF_OSSP_CMD { cmd1 with opcode := 4 } [] }

/-- Opcode 1 does not carry a descriptor, yet one arrives. -/
def envUnwantedFd : Env := { envOk with
  recv := RecvResult.msg SIZEOF_OSSP_CMD cmd1
    [{ level := SOL_SOCKET, ctype := SCM_RIGHTS, fd := 5 }] }

/-- Opcode 2 requires a descriptor, yet none arrives. -/
def envMissingFd : Env := { envOk with
  recv := RecvResult.msg SIZEOF_OSSP_CMD { cmd1 with opcode := 2 } [] }

/-- Environment whose allocator refuses to grow the data-in buffer. -/
def envAllocFail : Env := { envOk with
  allocOk := fun i _ => !(i = 1 : Bool) }

/-- A command declaring the largest u32 `din_size`, for opcode 3 (in range,
unregistered, no fixed args), with an allocator that accepts anything. -/
def envHugeDin : Env := { envOk with
  recv := RecvResult.msg SIZEOF_OSSP_CMD
    { magic := OSSP_CMD_MAGIC, opcode := 3, din_size := 4294967295,
      dout_size := 0 } [] }

/-! Helper lemmas about the reply stage and the early-return paths. -/

/-- `padTake 0` is always the empty byte run. -/
theorem padTake_zero (l : List Nat) : padTake 0 l = [] := rfl

/-- When every allocation request succeeds, the `ensure_sbuf_size` chain
requests exactly the listed sizes and reports success. -/
theorem ensureSeq_all (allocOk : Nat → Nat → Bool)
    (hal : ∀ i n, allocOk i n = true) (l : List (Nat × Nat)) :
    ensureSeq allocOk l = (l.map Prod.snd, true) := by
  induction l with
  | nil => rfl
  | cons a rest ih =>
    obtain ⟨i, n⟩ := a
    simp [ensureSeq, hal, ih]

/-- The reply stage records the result code it was given, along with the
hook call counts and traces, on every write-failure branch. -/
theorem finishReply_fields (env : Env) (res : Int) (rs ds : Nat)
    (rb db : List Nat) (ens rd : List Nat) (p hc q : Nat) :
    (finishReply env res rs ds rb db ens rd p hc q).result = some res ∧
    (finishReply env res rs ds rb db ens rd p hc q).preCalls = p ∧
    (finishReply env res rs ds rb db ens rd p hc q).handlerCalls = hc ∧
    (finishReply env res rs ds rb db ens rd p hc q).postCalls = q ∧
    (finishReply env res rs ds rb db ens rd p hc q).ensureCalls = ens ∧
    (finishReply env res rs ds rb db ens rd p hc q).readCalls = rd :=
  ⟨rfl, rfl, rfl, rfl, rfl, rfl⟩

/-- The reply stage returns either 1 or -EIO to the caller. -/
theorem finishReply_ret_cases (env : Env) (res : Int) (rs ds : Nat)
    (rb db : List Nat) (ens rd : List Nat) (p hc q : Nat) :
    (finishReply env res rs ds rb db ens rd p hc q).ret = 1 ∨
      (finishReply env res rs ds rb db ens rd p hc q).ret = -IOERR := by
  simp only [finishReply]
  repeat' split
  all_goals simp

/-- The reply stage returns 1 exactly when all three writes went out. -/
theorem finishReply_ret_iff (env : Env) (res : Int) (rs ds : Nat)
    (rb db : List Nat) (ens rd : List Nat) (p hc q : Nat) :
    (finishReply env res rs ds rb db ens rd p hc q).ret = 1 ↔
      (finishReply env res rs ds rb db ens rd p hc q).wire.length = 3 := by
  simp only [finishReply]
  repeat' split
  all_goals norm_num [IOERR]

/-- When no write fails the reply stage returns 1. -/
theorem finishReply_ret_ok (env : Env) (res : Int) (rs ds : Nat)
    (rb db : List Nat) (ens rd : List Nat) (p hc q : Nat)
    (hall : ∀ i, env.writeFail i = false) :
    (finishReply env res rs ds rb db ens rd p hc q).ret = 1 := by
  simp [finishReply, hall]

/-- When the header write fails the reply stage returns -EIO. -/
theorem finishReply_ret_hdrfail (env : Env) (res : Int) (rs ds : Nat)
    (rb db : List Nat) (ens rd : List Nat) (p hc q : Nat)
    (hw0 : env.writeFail 0 = true) :
    (finishReply env res rs ds rb db ens rd p hc q).ret = -IOERR := by
  simp [finishReply, hw0]

/-- On a negative result every reply header written carries `dout_size = 0`
and that result code, and every payload run written is empty. -/
theorem finishReply_neg (env : Env) (res : Int) (rs ds : Nat)
    (rb db : List Nat) (ens rd : List Nat) (p hc q : Nat) (hneg : res < 0) :
    (∀ rp, Chunk.hdr rp ∈ (finishReply env res rs ds rb db ens rd p hc q).wire →
      rp = { magic := OSSP_REPLY_MAGIC, result := res, dout_size := 0 }) ∧
    (∀ bs, Chunk.raw bs ∈ (finishReply env res rs ds rb db ens rd p hc q).wire →
      bs = []) := by
  have h0 : ¬ (0 ≤ res) := not_le.mpr hneg
  by_cases hw0 : env.writeFail 0 = true
  · constructor <;> intro x hx <;> simp [finishReply, hw0] at hx
  · have hfr : finishReply env res rs ds rb db ens rd p hc q =
        { ret := 1
          wire := [Chunk.hdr { magic := OSSP_REPLY_MAGIC, result := res,
                               dout_size := 0 },
                   Chunk.raw [], Chunk.raw []]
          result := some res
          preCalls := p
          handlerCalls := hc
          postCalls := q
          ensureCalls := ens
          readCalls := rd } := by
      simp [finishReply, hw0, h0, padTake_zero]
    rw [hfr]
    constructor
    · intro rp hrp
      simp at hrp
      simp [hrp]
    · intro bs hbs
      simp at hbs
      tauto

/-- On a non-negative result, a failure of the header write, of a nonzero
arg-out write, or of a nonzero data-out write makes the reply stage return
-EIO. -/
theorem finishReply_ret_wfail_nonneg (env : Env) (res : Int) (rs ds : Nat)
    (rb db : List Nat) (ens rd : List Nat) (p hc q : Nat)
    (hpos : 0 ≤ res)
    (hfail : env.writeFail 0 = true ∨
      (env.writeFail 1 = true ∧ rs ≠ 0) ∨
      (env.writeFail 2 = true ∧ ds ≠ 0)) :
    (finishReply env res rs ds rb db ens rd p hc q).ret = -IOERR := by
  rcases hfail with h | ⟨h, hrs⟩ | ⟨h, hds⟩
  · simp [finishReply, h]
  · by_cases h0 : env.writeFail 0 = true
    · simp [finishReply, h0]
    · simp [finishReply, if_pos hpos, h0, h, hrs]
  · by_cases h0 : env.writeFail 0 = true
    · simp [finishReply, h0]
    · by_cases h1 : env.writeFail 1 = true
      · by_cases hrs : rs = 0
        · simp [finishReply, if_pos hpos, h0, h1, hrs, h, hds]
        · simp [finishReply, if_pos hpos, h0, h1, hrs]
      · simp [finishReply, if_pos hpos, h0, h1, h, hds]

/-- When no write fails, the reply stage emits exactly the header and the
two payload runs and returns 1. -/
theorem finishReply_ok (env : Env) (res : Int) (rs ds : Nat)
    (rb db : List Nat) (ens rd : List Nat) (p hc q : Nat)
    (hw : ∀ i, env.writeFail i = false) :
    finishReply env res rs ds rb db ens rd p hc q =
      { ret := 1
        wire := [Chunk.hdr { magic := OSSP_REPLY_MAGIC, result := res,
                             dout_size := if 0 ≤ res then ds else 0 },
                 Chunk.raw (padTake (if 0 ≤ res then rs else 0) rb),
                 Chunk.raw (padTake (if 0 ≤ res then ds else 0) db)]
        result := some res
        preCalls := p
        handlerCalls := hc
        postCalls := q
        ensureCalls := ens
        readCalls := rd } := by
  simp [finishReply, hw]

/-! Path lemmas: what `processCommand` evaluates to on each control path. -/

/-- A short header (or over-long count) aborts with -EINVAL, line 110-114. -/
theorem path_badsize (cfg : Config) (env : Env) (nbytes : Nat)
    (cmd : OsspCmd) (cmsgs : List Cmsg)
    (h : env.recv = RecvResult.msg nbytes cmd cmsgs)
    (hn : nbytes ≠ SIZEOF_OSSP_CMD) :
    processCommand cfg env = abortOut (-EINVAL) [] [] := by
  simp [processCommand, validateStage, h, hn]

/-- A wrong magic aborts with -EINVAL, lines 116-119. -/
theorem path_badmagic (cfg : Config) (env : Env)
    (cmd : OsspCmd) (cmsgs : List Cmsg)
    (h : env.recv = RecvResult.msg SIZEOF_OSSP_CMD cmd cmsgs)
    (hm : cmd.magic ≠ OSSP_CMD_MAGIC) :
    processCommand cfg env = abortOut (-EINVAL) [] [] := by
  simp [processCommand, validateStage, h, hm]

/-- An unexpected ancillary message aborts with -EINVAL, lines 121-131. -/
theorem path_badcmsg (cfg : Config) (env : Env)
    (cmd : OsspCmd) (cmsgs : List Cmsg)
    (h : env.recv = RecvResult.msg SIZEOF_OSSP_CMD cmd cmsgs)
    (hm : cmd.magic = OSSP_CMD_MAGIC)
    (hsc : scanCmsgs (-1) cmsgs = none) :
    processCommand cfg env = abortOut (-EINVAL) [] [] := by
  simp [processCommand, validateStage, h, hm, hsc]

/-- An out-of-range opcode aborts with -EINVAL, lines 133-136. -/
theorem path_oob (cfg : Config) (env : Env)
    (cmd : OsspCmd) (cmsgs : List Cmsg) (fd : Int)
    (h : env.recv = RecvResult.msg SIZEOF_OSSP_CMD cmd cmsgs)
    (hm : cmd.magic = OSSP_CMD_MAGIC)
    (hsc : scanCmsgs (-1) cmsgs = some fd)
    (hop : cfg.nrOpcodes ≤ cmd.opcode) :
    processCommand cfg env = abortOut (-EINVAL) [] [] := by
  simp [processCommand, validateStage, h, hm, hsc, hop]

/-- A descriptor-presence mismatch aborts with -EINVAL, lines 143-146. -/
theorem path_fdmismatch (cfg : Config) (env : Env)
    (cmd : OsspCmd) (cmsgs : List Cmsg) (fd : Int)
    (h : env.recv = RecvResult.msg SIZEOF_OSSP_CMD cmd cmsgs)
    (hm : cmd.magic = OSSP_CMD_MAGIC)
    (hsc : scanCmsgs (-1) cmsgs = some fd)
    (hop : cmd.opcode < cfg.nrOpcodes)
    (hfd : (decide (0 ≤ fd)) ≠ (cfg.argSizes cmd.opcode).has_fd) :
    processCommand cfg env = abortOut (-EINVAL) [] [] := by
  simp [processCommand, validateStage, readStage, h, hm, hsc, Nat.not_le.mpr hop, hfd]

/-- A buffer-growth failure aborts with -ENOMEM after recording the sizes
requested so far and before any payload read, lines 148-154. -/
theorem path_allocfail (cfg : Config) (env : Env)
    (cmd : OsspCmd) (cmsgs : List Cmsg) (fd : Int)
    (h : env.recv = RecvResult.msg SIZEOF_OSSP_CMD cmd cmsgs)
    (hm : cmd.magic = OSSP_CMD_MAGIC)
    (hsc : scanCmsgs (-1) cmsgs = some fd)
    (hop : cmd.opcode < cfg.nrOpcodes)
    (hfd : (decide (0 ≤ fd)) = (cfg.argSizes cmd.opcode).has_fd)
    (hens : (ensureSeq env.allocOk (ensureList cfg cmd)).2 = false) :
    processCommand cfg env =
      abortOut (-ENOMEM) (ensureSeq env.allocOk (ensureList cfg cmd)).1 [] := by
  simp [processCommand, validateStage, readStage, h, hm, hsc, Nat.not_le.mpr hop, hfd, hens]

/-- A failing fixed-arg read aborts with the `read_fill` error -EIO,
lines 156-161. -/
theorem path_cargreadfail (cfg : Config) (env : Env)
    (cmd : OsspCmd) (cmsgs : List Cmsg) (fd : Int)
    (h : env.recv = RecvResult.msg SIZEOF_OSSP_CMD cmd cmsgs)
    (hm : cmd.magic = OSSP_CMD_MAGIC)
    (hsc : scanCmsgs (-1) cmsgs = some fd)
    (hop : cmd.opcode < cfg.nrOpcodes)
    (hfd : (decide (0 ≤ fd)) = (cfg.argSizes cmd.opcode).has_fd)
    (hal : ∀ i n, env.allocOk i n = true)
    (hcs : (cfg.argSizes cmd.opcode).carg_size ≠ 0)
    (hrf : env.readFail 0 = true) :
    processCommand cfg env =
      abortOut (-IOERR) ((ensureList cfg cmd).map Prod.snd)
        [(cfg.argSizes cmd.opcode).carg_size] := by
  simp [processCommand, validateStage, readStage, h, hm, hsc,
        Nat.not_le.mpr hop, hfd, ensureSeq_all env.allocOk hal, hcs, hrf]

/-- A failing data-in read aborts with the `read_fill` error -EIO,
lines 162-167. -/
theorem path_dinreadfail (cfg : Config) (env : Env)
    (cmd : OsspCmd) (cmsgs : List Cmsg) (fd : Int)
    (h : env.recv = RecvResult.msg SIZEOF_OSSP_CMD cmd cmsgs)
    (hm : cmd.magic = OSSP_CMD_MAGIC)
    (hsc : scanCmsgs (-1) cmsgs = some fd)
    (hop : cmd.opcode < cfg.nrOpcodes)
    (hfd : (decide (0 ≤ fd)) = (cfg.argSizes cmd.opcode).has_fd)
    (hal : ∀ i n, env.allocOk i n = true)
    (hrf0 : env.readFail 0 = false)
    (hds : cmd.din_size ≠ 0)
    (hrf : env.readFail 1 = true) :
    processCommand cfg env =
      abortOut (-IOERR) ((ensureList cfg cmd).map Prod.snd)
        ((if (cfg.argSizes cmd.opcode).carg_size ≠ 0 then
          [(cfg.argSizes cmd.opcode).carg_size] else []) ++
         [cmd.din_size]) := by
  simp [processCommand, validateStage, readStage, h, hm, hsc,
        Nat.not_le.mpr hop, hfd, ensureSeq_all env.allocOk hal, hrf0, hds, hrf]

/-- With a validated header, successful staging, and no registered handler,
the command result is -EINVAL and the bracket hooks never run, lines
173-174 with the reply stage. -/
theorem path_nohandler (cfg : Config) (env : Env)
    (cmd : OsspCmd) (cmsgs : List Cmsg) (fd : Int)
    (h : env.recv = RecvResult.msg SIZEOF_OSSP_CMD cmd cmsgs)
    (hm : cmd.magic = OSSP_CMD_MAGIC)
    (hsc : scanCmsgs (-1) cmsgs = some fd)
    (hop : cmd.opcode < cfg.nrOpcodes)
    (hfd : (decide (0 ≤ fd)) = (cfg.argSizes cmd.opcode).has_fd)
    (hal : ∀ i n, env.allocOk i n = true)
    (hrd : ∀ i, env.readFail i = false)
    (hact : cfg.actionTbl cmd.opcode = none) :
    processCommand cfg env =
      finishReply env (-EINVAL) (cfg.argSizes cmd.opcode).rarg_size
        cmd.dout_size env.staleRarg env.staleDout
        ((ensureList cfg cmd).map Prod.snd) (readList cfg cmd) 0 0 0 := by
  simp [processCommand, validateStage, readStage, invokeStage, h, hm, hsc,
        Nat.not_le.mpr hop, hfd, ensureSeq_all env.allocOk hal, hrd, hact]

/-- With a registered handler and a failing acquire hook, the hook result
becomes the command result and neither handler nor release runs,
lines 174-182 with the reply stage. -/
theorem path_prefail (cfg : Config) (env : Env)
    (cmd : OsspCmd) (cmsgs : List Cmsg) (fd : Int) (hf : HandlerFn)
    (h : env.recv = RecvResult.msg SIZEOF_OSSP_CMD cmd cmsgs)
    (hm : cmd.magic = OSSP_CMD_MAGIC)
    (hsc : scanCmsgs (-1) cmsgs = some fd)
    (hop : cmd.opcode < cfg.nrOpcodes)
    (hfd : (decide (0 ≤ fd)) = (cfg.argSizes cmd.opcode).has_fd)
    (hal : ∀ i n, env.allocOk i n = true)
    (hrd : ∀ i, env.readFail i = false)
    (hact : cfg.actionTbl cmd.opcode = some hf)
    (hpre : cfg.preRet ≠ 0) :
    processCommand cfg env =
      finishReply env cfg.preRet (cfg.argSizes cmd.opcode).rarg_size
        cmd.dout_size env.staleRarg env.staleDout
        ((ensureList cfg cmd).map Prod.snd) (readList cfg cmd) 1 0 0 := by
  simp [processCommand, validateStage, readStage, invokeStage, h, hm, hsc,
        Nat.not_le.mpr hop, hfd, ensureSeq_all env.allocOk hal, hrd, hact, hpre]

/-- With a registered handler and a successful acquire hook, the handler
runs on the staged buffers and the release hook runs exactly once,
lines 174-182 with the reply stage. -/
theorem path_handler (cfg : Config) (env : Env)
    (cmd : OsspCmd) (cmsgs : List Cmsg) (fd : Int) (hf : HandlerFn)
    (h : env.recv = RecvResult.msg SIZEOF_OSSP_CMD cmd cmsgs)
    (hm : cmd.magic = OSSP_CMD_MAGIC)
    (hsc : scanCmsgs (-1) cmsgs = some fd)
    (hop : cmd.opcode < cfg.nrOpcodes)
    (hfd : (decide (0 ≤ fd)) = (cfg.argSizes cmd.opcode).has_fd)
    (hal : ∀ i n, env.allocOk i n = true)
    (hrd : ∀ i, env.readFail i = false)
    (hact : cfg.actionTbl cmd.opcode = some hf)
    (hpre : cfg.preRet = 0) :
    processCommand cfg env =
      finishReply env
        (hf cmd.opcode (cargView cfg env cmd) (dinView env cmd)
          cmd.din_size cmd.dout_size fd).result
        (cfg.argSizes cmd.opcode).rarg_size
        (hf cmd.opcode (cargView cfg env cmd) (dinView env cmd)
          cmd.din_size cmd.dout_size fd).dout_size
        (hf cmd.opcode (cargView cfg env cmd) (dinView env cmd)
          cmd.din_size cmd.dout_size fd).rargBuf
        (hf cmd.opcode (cargView cfg env cmd) (dinView env cmd)
          cmd.din_size cmd.dout_size fd).doutBuf
        ((ensureList cfg cmd).map Prod.snd) (readList cfg cmd) 1 1 1 := by
  simp [processCommand, validateStage, readStage, invokeStage, h, hm, hsc,
        Nat.not_le.mpr hop, hfd, ensureSeq_all env.allocOk hal, hrd, hact, hpre]

/-- The Invoke stage always ends in the reply stage. -/
theorem invokeStage_shape (cfg : Config) (env : Env) (cmd : OsspCmd)
    (fd : Int) :
    ∃ res rs ds rb db ens rd p hc q,
      invokeStage cfg env cmd fd =
        finishReply env res rs ds rb db ens rd p hc q := by
  unfold invokeStage
  repeat' split
  all_goals exact ⟨_, _, _, _, _, _, _, _, _, _, rfl⟩

/-- The staging/read stage either aborts with a negative return code and
an untouched wire, or reaches Invoke, hence the reply stage. -/
theorem readStage_shape (cfg : Config) (env : Env) (cmd : OsspCmd)
    (fd : Int) :
    (∃ e ens rds, readStage cfg env cmd fd = abortOut e ens rds ∧ e < 0) ∨
    (∃ res rs ds rb db ens rd p hc q,
      readStage cfg env cmd fd =
        finishReply env res rs ds rb db ens rd p hc q) := by
  unfold readStage
  repeat' split
  all_goals
    first
    | exact Or.inr (invokeStage_shape cfg env cmd fd)
    | exact Or.inl ⟨_, _, _, rfl, by decide⟩

/-- Header validation either aborts with a negative return code and an
untouched wire, or reaches the reply stage. -/
theorem validateStage_shape (cfg : Config) (env : Env) (nbytes : Nat)
    (cmd : OsspCmd) (cmsgs : List Cmsg) :
    (∃ e ens rds,
      validateStage cfg env nbytes cmd cmsgs = abortOut e ens rds ∧ e < 0) ∨
    (∃ res rs ds rb db ens rd p hc q,
      validateStage cfg env nbytes cmd cmsgs =
        finishReply env res rs ds rb db ens rd p hc q) := by
  unfold validateStage
  repeat' split
  all_goals
    first
    | exact readStage_shape cfg env cmd _
    | exact Or.inl ⟨_, _, _, rfl, by decide⟩

/-- Every invocation either never reaches the reply stage, leaving the wire
untouched, or is exactly a `finishReply` at some result code. -/
theorem processCommand_shape (cfg : Config) (env : Env) :
    ((processCommand cfg env).result = none ∧
      (processCommand cfg env).wire = []) ∨
    (∃ res rs ds rb db ens rd p hc q,
      processCommand cfg env = finishReply env res rs ds rb db ens rd p hc q)
    := by
  cases hrecv : env.recv with
  | closed => exact Or.inl (by simp [processCommand, hrecv, Outcome.mk0, abortOut])
  | failed e => exact Or.inl (by simp [processCommand, hrecv, abortOut])
  | msg nbytes cmd cmsgs =>
    simp only [processCommand, hrecv]
    rcases validateStage_shape cfg env nbytes cmd cmsgs with
      ⟨e, ens, rds, heq, _⟩ | hr
    · rw [heq]
      exact Or.inl ⟨rfl, rfl⟩
    · exact Or.inr hr

/-! Claim theorems. -/

/-- C9: if the initial socket receive returns zero bytes (clean peer
close), `ossp_slave_process_command` returns the distinct no-command
outcome 0 — not an error — with no validation, no dispatch, and nothing
written to the channel. -/
theorem clean_close_no_command (cfg : Config) (env : Env)
    (h : env.recv = RecvResult.closed) :
    (processCommand cfg env).ret = 0 ∧
    (processCommand cfg env).wire = [] ∧
    (processCommand cfg env).preCalls = 0 ∧
    (processCommand cfg env).handlerCalls = 0 ∧
    (processCommand cfg env).postCalls = 0 ∧
    (processCommand cfg env).ensureCalls = [] ∧
    (processCommand cfg env).readCalls = [] := by
  simp [processCommand, h, Outcome.mk0, abortOut]

/-- Witness for C9 at the concrete fixture `envClosed`. -/
theorem clean_close_no_command_witness :
    envClosed.recv = RecvResult.closed ∧
    ((processCommand testCfg envClosed).ret = 0 ∧
     (processCommand testCfg envClosed).wire = [] ∧
     (processCommand testCfg envClosed).preCalls = 0 ∧
     (processCommand testCfg envClosed).handlerCalls = 0 ∧
     (processCommand testCfg envClosed).postCalls = 0 ∧
     (processCommand testCfg envClosed).ensureCalls = [] ∧
     (processCommand testCfg envClosed).readCalls = []) :=
  ⟨rfl, clean_close_no_command testCfg envClosed rfl⟩

/-- C7: a received byte count other than the exact header size, a magic
mismatch, and an out-of-range opcode each make the call fail with -EINVAL
(the code the source uses for MalformedFrame and UnknownOpcode alike), and
in each case no handler is invoked. -/
theorem header_validation_rejects (cfg : Config) (env : Env) (nbytes : Nat)
    (cmd : OsspCmd) (cmsgs : List Cmsg)
    (h : env.recv = RecvResult.msg nbytes cmd cmsgs) :
    (nbytes ≠ SIZEOF_OSSP_CMD →
      (processCommand cfg env).ret = -EINVAL ∧
      (processCommand cfg env).handlerCalls = 0) ∧
    (cmd.magic ≠ OSSP_CMD_MAGIC →
      (processCommand cfg env).ret = -EINVAL ∧
      (processCommand cfg env).handlerCalls = 0) ∧
    (cfg.nrOpcodes ≤ cmd.opcode →
      (processCommand cfg env).ret = -EINVAL ∧
      (processCommand cfg env).handlerCalls = 0) := by
  refine ⟨fun hn => ?_, fun hm => ?_, fun hop => ?_⟩
  · rw [path_badsize cfg env nbytes cmd cmsgs h hn]
    exact ⟨rfl, rfl⟩
  · by_cases hn : nbytes = SIZEOF_OSSP_CMD
    · subst hn
      rw [path_badmagic cfg env cmd cmsgs h hm]
      exact ⟨rfl, rfl⟩
    · rw [path_badsize cfg env nbytes cmd cmsgs h hn]
      exact ⟨rfl, rfl⟩
  · by_cases hn : nbytes = SIZEOF_OSSP_CMD
    · subst hn
      by_cases hm : cmd.magic = OSSP_CMD_MAGIC
      · cases hsc : scanCmsgs (-1) cmsgs with
        | none =>
          rw [path_badcmsg cfg env cmd cmsgs h hm hsc]
          exact ⟨rfl, rfl⟩
        | some fd =>
          rw [path_oob cfg env cmd cmsgs fd h hm hsc hop]
          exact ⟨rfl, rfl⟩
      · rw [path_badmagic cfg env cmd cmsgs h hm]
        exact ⟨rfl, rfl⟩
    · rw [path_badsize cfg env nbytes cmd cmsgs h hn]
      exact ⟨rfl, rfl⟩

/-- Witness for C7: a 7-byte header is rejected with -EINVAL and no
handler runs. -/
theorem header_validation_rejects_witness :
    envBadSize.recv = RecvResult.msg 7 cmd1 [] ∧
    (7 : Nat) ≠ SIZEOF_OSSP_CMD ∧
    (processCommand testCfg envBadSize).ret = -EINVAL ∧
    (processCommand testCfg envBadSize).handlerCalls = 0 :=
  ⟨rfl, by decide,
    (header_validation_rejects testCfg envBadSize 7 cmd1 [] rfl).1 (by decide)⟩

/-- C6: once the header passes magic and opcode-range validation, the
handler is invoked only if descriptor presence matches the opcode table:
ancillary data of a type other than descriptor passing, a missing expected
descriptor, and an unexpected descriptor each return -EINVAL (the code the
source uses for ProtocolViolation) without dispatching. -/
theorem descriptor_gating (cfg : Config) (env : Env)
    (cmd : OsspCmd) (cmsgs : List Cmsg)
    (h : env.recv = RecvResult.msg SIZEOF_OSSP_CMD cmd cmsgs)
    (hm : cmd.magic = OSSP_CMD_MAGIC)
    (hop : cmd.opcode < cfg.nrOpcodes) :
    (scanCmsgs (-1) cmsgs = none →
      (processCommand cfg env).ret = -EINVAL ∧
      (processCommand cfg env).handlerCalls = 0) ∧
    (∀ fd, scanCmsgs (-1) cmsgs = some fd →
      (decide (0 ≤ fd)) ≠ (cfg.argSizes cmd.opcode).has_fd →
      (processCommand cfg env).ret = -EINVAL ∧
      (processCommand cfg env).handlerCalls = 0) := by
  constructor
  · intro hsc
    rw [path_badcmsg cfg env cmd cmsgs h hm hsc]
    exact ⟨rfl, rfl⟩
  · intro fd hsc hfd
    rw [path_fdmismatch cfg env cmd cmsgs fd h hm hsc hop hfd]
    exact ⟨rfl, rfl⟩

/-- Witness for C6: opcode 2 requires a descriptor; a request without one
is rejected with -EINVAL and no handler runs. -/
theorem descriptor_gating_witness :
    scanCmsgs (-1) ([] : List Cmsg) = some (-1) ∧
    (processCommand testCfg envMissingFd).ret = -EINVAL ∧
    (processCommand testCfg envMissingFd).handlerCalls = 0 :=
  ⟨rfl, (descriptor_gating testCfg envMissingFd { cmd1 with opcode := 2 } []
    rfl rfl (by decide)).2 (-1) rfl (by decide)⟩

/-- C4: for every dispatched command that reaches Invoke with a registered
handler, a failing acquire hook makes its result the command result with
neither the handler nor the release hook run; a successful acquire hook
runs the handler and then the release hook exactly once, whatever the
handler returns. -/
theorem bracket_invariant (cfg : Config) (env : Env)
    (cmd : OsspCmd) (cmsgs : List Cmsg) (fd : Int) (hf : HandlerFn)
    (h : env.recv = RecvResult.msg SIZEOF_OSSP_CMD cmd cmsgs)
    (hm : cmd.magic = OSSP_CMD_MAGIC)
    (hsc : scanCmsgs (-1) cmsgs = some fd)
    (hop : cmd.opcode < cfg.nrOpcodes)
    (hfd : (decide (0 ≤ fd)) = (cfg.argSizes cmd.opcode).has_fd)
    (hal : ∀ i n, env.allocOk i n = true)
    (hrd : ∀ i, env.readFail i = false)
    (hact : cfg.actionTbl cmd.opcode = some hf) :
    (cfg.preRet ≠ 0 →
      (processCommand cfg env).preCalls = 1 ∧
      (processCommand cfg env).handlerCalls = 0 ∧
      (processCommand cfg env).postCalls = 0 ∧
      (processCommand cfg env).result = some cfg.preRet) ∧
    (cfg.preRet = 0 →
      (processCommand cfg env).preCalls = 1 ∧
      (processCommand cfg env).handlerCalls = 1 ∧
      (processCommand cfg env).postCalls = 1) := by
  constructor
  · intro hpre
    rw [path_prefail cfg env cmd cmsgs fd hf h hm hsc hop hfd hal hrd hact
      hpre]
    exact ⟨rfl, rfl, rfl, rfl⟩
  · intro hpre
    rw [path_handler cfg env cmd cmsgs fd hf h hm hsc hop hfd hal hrd hact
      hpre]
    exact ⟨rfl, rfl, rfl⟩

/-- Witness for C4: with the succeeding acquire hook of `testCfg`, the
opcode-1 handler and the release hook each run exactly once. -/
theorem bracket_invariant_witness :
    testCfg.preRet = 0 ∧
    ((processCommand testCfg envOk).preCalls = 1 ∧
     (processCommand testCfg envOk).handlerCalls = 1 ∧
     (processCommand testCfg envOk).postCalls = 1) :=
  ⟨rfl, (bracket_invariant testCfg envOk cmd1 [] (-1) okHandler rfl rfl rfl
    (by decide) rfl (fun _ _ => rfl) (fun _ => rfl) rfl).2 rfl⟩

/-- C5: whenever the command result is negative at the reply stage, every
reply header written to the wire carries `dout_size = 0` and that result,
and every payload section written is empty — regardless of what the
handler wrote into its buffers or stored in the output-length variable. -/
theorem negative_result_empty_sections (cfg : Config) (env : Env) (r : Int)
    (hres : (processCommand cfg env).result = some r) (hneg : r < 0) :
    (∀ rp, Chunk.hdr rp ∈ (processCommand cfg env).wire →
      rp = { magic := OSSP_REPLY_MAGIC, result := r, dout_size := 0 }) ∧
    (∀ bs, Chunk.raw bs ∈ (processCommand cfg env).wire → bs = []) := by
  rcases processCommand_shape cfg env with ⟨hn, _⟩ |
    ⟨res, rs, ds, rb, db, ens, rd, p, hc, q, heq⟩
  · rw [hn] at hres
    cases hres
  · rw [heq] at hres ⊢
    have hr : res = r := by
      have hfld := (finishReply_fields env res rs ds rb db ens rd p hc q).1
      rw [hfld] at hres
      exact Option.some.inj hres
    subst hr
    exact finishReply_neg env res rs ds rb db ens rd p hc q hneg

/-- Witness for C5: the failing opcode-1 handler of `negCfg` scribbled into
both output buffers and set the output length to 99, yet the reply written
carries `dout_size = 0` and both payload sections are empty. -/
theorem negative_result_empty_sections_witness :
    (processCommand negCfg envOk).result = some (-5) ∧
    ((∀ rp, Chunk.hdr rp ∈ (processCommand negCfg envOk).wire →
      rp = { magic := OSSP_REPLY_MAGIC, result := -5, dout_size := 0 }) ∧
     (∀ bs, Chunk.raw bs ∈ (processCommand negCfg envOk).wire → bs = [])) :=
  ⟨by decide,
    negative_result_empty_sections negCfg envOk (-5) (by decide) (by decide)⟩

/-- C10: every command that reaches the reply stage returns 1 to the outer
loop exactly when all three reply writes went out, and otherwise -EIO —
even when the command result is negative — so a failing handler never by
itself signals channel shutdown. -/
theorem reply_return_discipline (cfg : Config) (env : Env) (r : Int)
    (hres : (processCommand cfg env).result = some r) :
    ((processCommand cfg env).ret = 1 ∨
      (processCommand cfg env).ret = -IOERR) ∧
    ((processCommand cfg env).ret = 1 ↔
      (processCommand cfg env).wire.length = 3) ∧
    ((∀ i, env.writeFail i = false) → (processCommand cfg env).ret = 1) ∧
    (env.writeFail 0 = true → (processCommand cfg env).ret = -IOERR) := by
  rcases processCommand_shape cfg env with ⟨hn, _⟩ |
    ⟨res, rs, ds, rb, db, ens, rd, p, hc, q, heq⟩
  · rw [hn] at hres
    cases hres
  · rw [heq]
    exact ⟨finishReply_ret_cases env res rs ds rb db ens rd p hc q,
      finishReply_ret_iff env res rs ds rb db ens rd p hc q,
      fun hall => finishReply_ret_ok env res rs ds rb db ens rd p hc q hall,
      fun h0 => finishReply_ret_hdrfail env res rs ds rb db ens rd p hc q h0⟩

/-- Witness for C10: a handler failure (result -5) still returns 1 once all
three reply writes succeed. -/
theorem reply_return_discipline_witness :
    (processCommand negCfg envOk).result = some (-5) ∧
    (processCommand negCfg envOk).wire.length = 3 ∧
    (processCommand negCfg envOk).ret = 1 :=
  ⟨by decide, by decide,
    (reply_return_discipline negCfg envOk (-5) (by decide)).2.2.1
      (fun _ => rfl)⟩

/-- C8: when the handler returns a non-negative result, the reply header's
`dout_size` equals the handler's (possibly reduced) output length, and the
wire output is exactly the reply header, then the fixed-arg-out bytes, then
the data-out bytes (zero-length sections contributing no bytes); a failure
of any of these writes makes the call abort with -EIO. -/
theorem reply_success_framing (cfg : Config) (env : Env)
    (cmd : OsspCmd) (cmsgs : List Cmsg) (fd : Int) (hf : HandlerFn)
    (hout : HandlerOut)
    (h : env.recv = RecvResult.msg SIZEOF_OSSP_CMD cmd cmsgs)
    (hm : cmd.magic = OSSP_CMD_MAGIC)
    (hsc : scanCmsgs (-1) cmsgs = some fd)
    (hop : cmd.opcode < cfg.nrOpcodes)
    (hfd : (decide (0 ≤ fd)) = (cfg.argSizes cmd.opcode).has_fd)
    (hal : ∀ i n, env.allocOk i n = true)
    (hrd : ∀ i, env.readFail i = false)
    (hact : cfg.actionTbl cmd.opcode = some hf)
    (hpre : cfg.preRet = 0)
    (hhout : hf cmd.opcode (cargView cfg env cmd) (dinView env cmd)
      cmd.din_size cmd.dout_size fd = hout)
    (hpos : 0 ≤ hout.result) :
    ((∀ i, env.writeFail i = false) →
      (processCommand cfg env).ret = 1 ∧
      (processCommand cfg env).wire =
        [Chunk.hdr { magic := OSSP_REPLY_MAGIC, result := hout.result,
                     dout_size := hout.dout_size },
         Chunk.raw (padTake (cfg.argSizes cmd.opcode).rarg_size hout.rargBuf),
         Chunk.raw (padTake hout.dout_size hout.doutBuf)]) ∧
    (env.writeFail 0 = true → (processCommand cfg env).ret = -IOERR) ∧
    (env.writeFail 1 = true ∧ (cfg.argSizes cmd.opcode).rarg_size ≠ 0 →
      (processCommand cfg env).ret = -IOERR) ∧
    (env.writeFail 2 = true ∧ hout.dout_size ≠ 0 →
      (processCommand cfg env).ret = -IOERR) := by
  rw [path_handler cfg env cmd cmsgs fd hf h hm hsc hop hfd hal hrd hact
    hpre, hhout]
  refine ⟨fun hw => ?_, fun h0 => ?_, fun hw1 => ?_, fun hw2 => ?_⟩
  · rw [finishReply_ok env hout.result _ _ _ _ _ _ _ _ _ hw]
    refine ⟨rfl, ?_⟩
    simp [if_pos hpos]
  · exact finishReply_ret_hdrfail env hout.result _ _ _ _ _ _ _ _ _ h0
  · exact finishReply_ret_wfail_nonneg env hout.result _ _ _ _ _ _ _ _ _
      hpos (Or.inr (Or.inl hw1))
  · exact finishReply_ret_wfail_nonneg env hout.result _ _ _ _ _ _ _ _ _
      hpos (Or.inr (Or.inr hw2))

/-- Witness for C8: the opcode-1 echo handler keeps `dout_size = 4`; the
wire is exactly the header, the two arg-out bytes, and four data-out bytes
(the written three plus one uninitialized byte, modelled as zero). -/
theorem reply_success_framing_witness :
    (0 : Int) ≤ 0 ∧
    (processCommand testCfg envOk).ret = 1 ∧
    (processCommand testCfg envOk).wire =
      [Chunk.hdr { magic := OSSP_REPLY_MAGIC, result := 0, dout_size := 4 },
       Chunk.raw [7, 7], Chunk.raw [9, 9, 9, 0]] :=
  ⟨le_refl 0,
    (reply_success_framing testCfg envOk cmd1 [] (-1) okHandler
      { result := 0, dout_size := 4, rargBuf := [7, 7], doutBuf := [9, 9, 9] }
      rfl rfl rfl (by decide) rfl (fun _ _ => rfl) (fun _ => rfl) rfl rfl
      rfl (by decide)).1 (fun _ => rfl)⟩

/-- C1 counterexample: a magic mismatch is not channel-fatal in the
claim's enumeration, yet `ossp_slave_process_command` returns -EINVAL with
nothing written to the wire — no failing reply frame is sent to the peer. -/
theorem failed_validation_sends_nothing :
    (processCommand testCfg envBadMagic).ret = -EINVAL ∧
    (processCommand testCfg envBadMagic).wire = [] := by
  constructor <;> decide

/-- C1 (amended): validation and allocation failures before the Invoke
stage (wrong byte count, bad magic, unknown ancillary type, out-of-range
opcode, descriptor mismatch, allocation failure, failed payload read)
return a negative error to the caller with no reply frame written; only a
command that reaches the reply stage with a negative result produces a
well-formed failing reply — negative result, `dout_size = 0`, empty
payload sections. -/
theorem failing_reply_discipline (cfg : Config) (env : Env) :
    (∀ nbytes cmd cmsgs, env.recv = RecvResult.msg nbytes cmd cmsgs →
      (processCommand cfg env).result = none →
      (processCommand cfg env).wire = [] ∧
      (processCommand cfg env).ret < 0) ∧
    (∀ r, (processCommand cfg env).result = some r → r < 0 →
      (∀ i, env.writeFail i = false) →
      (processCommand cfg env).ret = 1 ∧
      (processCommand cfg env).wire =
        [Chunk.hdr { magic := OSSP_REPLY_MAGIC, result := r, dout_size := 0 },
         Chunk.raw [], Chunk.raw []]) := by
  constructor
  · intro nbytes cmd cmsgs h hnone
    simp only [processCommand, h] at hnone ⊢
    rcases validateStage_shape cfg env nbytes cmd cmsgs with
      ⟨e, ens, rds, heq, hneg⟩ |
      ⟨res, rs, ds, rb, db, ens, rd, p, hc, q, heq⟩
    · rw [heq]
      exact ⟨rfl, hneg⟩
    · rw [heq] at hnone
      rw [(finishReply_fields env res rs ds rb db ens rd p hc q).1] at hnone
      cases hnone
  · intro r hres hneg hw
    rcases processCommand_shape cfg env with ⟨hn, _⟩ |
      ⟨res, rs, ds, rb, db, ens, rd, p, hc, q, heq⟩
    · rw [hn] at hres
      cases hres
    · rw [heq] at hres ⊢
      have hr : res = r := by
        have hfld := (finishReply_fields env res rs ds rb db ens rd p hc q).1
        rw [hfld] at hres
        exact Option.some.inj hres
      subst hr
      rw [finishReply_ok env res rs ds rb db ens rd p hc q hw]
      have h0 : ¬ (0 ≤ res) := not_le.mpr hneg
      refine ⟨rfl, ?_⟩
      simp [h0, padTake_zero]

/-- Witness for C1 (amended), Invoke-stage part: the failing handler's
result -5 is delivered in a well-formed reply frame with empty sections. -/
theorem failing_reply_discipline_witness :
    (processCommand negCfg envOk).result = some (-5) ∧
    ((processCommand negCfg envOk).ret = 1 ∧
     (processCommand negCfg envOk).wire =
      [Chunk.hdr { magic := OSSP_REPLY_MAGIC, result := -5, dout_size := 0 },
       Chunk.raw [], Chunk.raw []]) :=
  ⟨by decide, (failing_reply_discipline negCfg envOk).2 (-5) (by decide)
    (by decide) (fun _ => rfl)⟩

/-- C2 counterexample: the categories do not get distinct codes — a bad
magic (MalformedFrame), an out-of-range opcode (UnknownOpcode), and a
missing expected descriptor (ProtocolViolation) all surface as the same
code -EINVAL = -22. -/
theorem error_codes_shared :
    (processCommand testCfg envBadMagic).ret = -22 ∧
    (processCommand testCfg envOobOpcode).ret = -22 ∧
    (processCommand testCfg envMissingFd).ret = -22 := by
  refine ⟨?_, ?_, ?_⟩ <;> decide

/-- C2 (amended): errors map onto three codes, not five distinct ones —
read/write failures yield -EIO and buffer-growth failure yields -ENOMEM,
while wrong header size, bad magic, unknown ancillary type, out-of-range
or unregistered opcode, and descriptor-presence mismatch all yield the one
code -EINVAL. -/
theorem error_code_mapping (cfg : Config) (env : Env) (nbytes : Nat)
    (cmd : OsspCmd) (cmsgs : List Cmsg)
    (h : env.recv = RecvResult.msg nbytes cmd cmsgs) :
    (nbytes ≠ SIZEOF_OSSP_CMD → (processCommand cfg env).ret = -EINVAL) ∧
    (nbytes = SIZEOF_OSSP_CMD → cmd.magic ≠ OSSP_CMD_MAGIC →
      (processCommand cfg env).ret = -EINVAL) ∧
    (nbytes = SIZEOF_OSSP_CMD → cmd.magic = OSSP_CMD_MAGIC →
      scanCmsgs (-1) cmsgs = none →
      (processCommand cfg env).ret = -EINVAL) ∧
    (nbytes = SIZEOF_OSSP_CMD → cmd.magic = OSSP_CMD_MAGIC →
      cfg.nrOpcodes ≤ cmd.opcode →
      (processCommand cfg env).ret = -EINVAL) ∧
    (∀ fd, nbytes = SIZEOF_OSSP_CMD → cmd.magic = OSSP_CMD_MAGIC →
      scanCmsgs (-1) cmsgs = some fd → cmd.opcode < cfg.nrOpcodes →
      (decide (0 ≤ fd)) ≠ (cfg.argSizes cmd.opcode).has_fd →
      (processCommand cfg env).ret = -EINVAL) ∧
    (∀ fd, nbytes = SIZEOF_OSSP_CMD → cmd.magic = OSSP_CMD_MAGIC →
      scanCmsgs (-1) cmsgs = some fd → cmd.opcode < cfg.nrOpcodes →
      (decide (0 ≤ fd)) = (cfg.argSizes cmd.opcode).has_fd →
      (ensureSeq env.allocOk (ensureList cfg cmd)).2 = false →
      (processCommand cfg env).ret = -ENOMEM) ∧
    (∀ fd, nbytes = SIZEOF_OSSP_CMD → cmd.magic = OSSP_CMD_MAGIC →
      scanCmsgs (-1) cmsgs = some fd → cmd.opcode < cfg.nrOpcodes →
      (decide (0 ≤ fd)) = (cfg.argSizes cmd.opcode).has_fd →
      (∀ i n, env.allocOk i n = true) →
      (cfg.argSizes cmd.opcode).carg_size ≠ 0 → env.readFail 0 = true →
      (processCommand cfg env).ret = -IOERR) ∧
    (∀ r, (processCommand cfg env).result = some r →
      env.writeFail 0 = true → (processCommand cfg env).ret = -IOERR) ∧
    (∀ fd, nbytes = SIZEOF_OSSP_CMD → cmd.magic = OSSP_CMD_MAGIC →
      scanCmsgs (-1) cmsgs = some fd → cmd.opcode < cfg.nrOpcodes →
      (decide (0 ≤ fd)) = (cfg.argSizes cmd.opcode).has_fd →
      (∀ i n, env.allocOk i n = true) → (∀ i, env.readFail i = false) →
      cfg.actionTbl cmd.opcode = none →
      (processCommand cfg env).result = some (-EINVAL)) := by
  refine ⟨fun hn => ?_, fun hn hm => ?_, fun hn hm hsc => ?_,
    fun hn hm hop => ?_, fun fd hn hm hsc hop hfd => ?_,
    fun fd hn hm hsc hop hfd hens => ?_,
    fun fd hn hm hsc hop hfd hal hcs hrf => ?_, fun r hres h0 => ?_,
    fun fd hn hm hsc hop hfd hal hrd hact => ?_⟩
  · rw [path_badsize cfg env nbytes cmd cmsgs h hn]
    rfl
  · subst hn
    rw [path_badmagic cfg env cmd cmsgs h hm]
    rfl
  · subst hn
    rw [path_badcmsg cfg env cmd cmsgs h hm hsc]
    rfl
  · subst hn
    cases hsc : scanCmsgs (-1) cmsgs with
    | none =>
      rw [path_badcmsg cfg env cmd cmsgs h hm hsc]
      rfl
    | some fd =>
      rw [path_oob cfg env cmd cmsgs fd h hm hsc hop]
      rfl
  · subst hn
    rw [path_fdmismatch cfg env cmd cmsgs fd h hm hsc hop hfd]
    rfl
  · subst hn
    rw [path_allocfail cfg env cmd cmsgs fd h hm hsc hop hfd hens]
    rfl
  · subst hn
    rw [path_cargreadfail cfg env cmd cmsgs fd h hm hsc hop hfd hal hcs hrf]
    rfl
  · rcases processCommand_shape cfg env with ⟨hnone, _⟩ |
      ⟨res, rs, ds, rb, db, ens, rd, p, hc, q, heq⟩
    · rw [hnone] at hres
      cases hres
    · rw [heq]
      exact finishReply_ret_hdrfail env res rs ds rb db ens rd p hc q h0
  · subst hn
    rw [path_nohandler cfg env cmd cmsgs fd h hm hsc hop hfd hal hrd hact]
    rfl

/-- Witness for C2 (amended): a data-in buffer growth failure surfaces as
-ENOMEM. -/
theorem error_code_mapping_witness :
    envAllocFail.recv = RecvResult.msg SIZEOF_OSSP_CMD cmd1 [] ∧
    (ensureSeq envAllocFail.allocOk (ensureList testCfg cmd1)).2 = false ∧
    (processCommand testCfg envAllocFail).ret = -ENOMEM :=
  ⟨rfl, by decide,
    (error_code_mapping testCfg envAllocFail SIZEOF_OSSP_CMD cmd1 []
      rfl).2.2.2.2.2.1 (-1) rfl rfl rfl (by decide) rfl (by decide)⟩

/-- C3 counterexample: the peer-declared `din_size` is not checked against
any bound before allocation or fill — the largest u32 value 4294967295
flows straight into the buffer-growth request and, once the allocator
accepts it, into a wire read of that full declared byte count. -/
theorem unbounded_din_size :
    (processCommand testCfg envHugeDin).ensureCalls =
      [0, 4294967295, 0, 0] ∧
    (processCommand testCfg envHugeDin).readCalls = [4294967295] := by
  constructor <;> decide

/-- C3 (amended): `din_size`/`dout_size` flow unchecked into buffer
growth, but when any growth request fails the command aborts with -ENOMEM
before any payload byte is requested from the wire and with nothing
written. -/
theorem alloc_failure_before_read (cfg : Config) (env : Env)
    (cmd : OsspCmd) (cmsgs : List Cmsg) (fd : Int)
    (h : env.recv = RecvResult.msg SIZEOF_OSSP_CMD cmd cmsgs)
    (hm : cmd.magic = OSSP_CMD_MAGIC)
    (hsc : scanCmsgs (-1) cmsgs = some fd)
    (hop : cmd.opcode < cfg.nrOpcodes)
    (hfd : (decide (0 ≤ fd)) = (cfg.argSizes cmd.opcode).has_fd)
    (hens : (ensureSeq env.allocOk (ensureList cfg cmd)).2 = false) :
    (processCommand cfg env).ret = -ENOMEM ∧
    (processCommand cfg env).readCalls = [] ∧
    (processCommand cfg env).wire = [] := by
  rw [path_allocfail cfg env cmd cmsgs fd h hm hsc hop hfd hens]
  exact ⟨rfl, rfl, rfl⟩

/-- Witness for C3 (amended): with the data-in growth refused, the call
aborts with -ENOMEM, reads no payload, and writes nothing. -/
theorem alloc_failure_before_read_witness :
    (ensureSeq envAllocFail.allocOk (ensureList testCfg cmd1)).2 = false ∧
    ((processCommand testCfg envAllocFail).ret = -ENOMEM ∧
     (processCommand testCfg envAllocFail).readCalls = [] ∧
     (processCommand testCfg envAllocFail).wire = []) :=
  ⟨by decide, alloc_failure_before_read testCfg envAllocFail cmd1 [] (-1)
    rfl rfl rfl (by decide) rfl (by decide)⟩

end Osspd
